import Mathlib

/-!
Verification of the node-onvif client against its natural-language
specification.  The development shallowly embeds the discovery probe
engine (node-onvif.js), the SOAP transport layer (soap.js / helpers.js)
and the HTTP Basic/Digest authenticator (http-auth.js) as executable
Lean functions, together with the cryptographic primitives they call
(MD5, SHA-1, base64, UTF-8, ISO-8601 date rendering) so that concrete
byte-for-byte test vectors can be checked by the kernel.
-/

set_option maxRecDepth 100000

namespace NodeOnvif

/- ---------------------------------------------------------------
   Byte-level utilities shared by the crypto embeddings.
   Bytes are Nats in [0,255]; machine words are Nats reduced mod 2^32.
--------------------------------------------------------------- -/

/-- UTF-8 encoding of a single character, as byte values. -/
def utf8Char (c : Char) : List Nat :=
  let n := c.toNat
  if n < 0x80 then [n]
  else if n < 0x800 then
    [0xC0 ||| (n >>> 6), 0x80 ||| (n &&& 0x3F)]
  else if n < 0x10000 then
    [0xE0 ||| (n >>> 12), 0x80 ||| ((n >>> 6) &&& 0x3F), 0x80 ||| (n &&& 0x3F)]
  else
    [0xF0 ||| (n >>> 18), 0x80 ||| ((n >>> 12) &&& 0x3F),
     0x80 ||| ((n >>> 6) &&& 0x3F), 0x80 ||| (n &&& 0x3F)]

/-- UTF-8 bytes of a string (the encoding Buffer.from(str, utf8) uses). -/
def strBytes (s : String) : List Nat :=
  (s.data.map utf8Char).flatten

/-- Lower-case hexadecimal digit. -/
def hexDigit (n : Nat) : Char :=
  "0123456789abcdef".data.getD n '0'

/-- Two-digit lower-case hex rendering of one byte. -/
def byteHex (b : Nat) : List Char :=
  [hexDigit (b / 16), hexDigit (b % 16)]

/-- Lower-case hex string of a byte list (Buffer.toString hex). -/
def bytesToHex (l : List Nat) : String :=
  String.mk (l.map byteHex).flatten

/-- Little-endian byte rendering of a number on k bytes. -/
def leBytes : Nat → Nat → List Nat
  | 0, _ => []
  | k + 1, n => (n % 256) :: leBytes k (n / 256)

/-- Big-endian byte rendering of a number on k bytes. -/
def beBytes (k n : Nat) : List Nat :=
  (leBytes k n).reverse

/-- 32-bit word from four little-endian bytes. -/
def leWord (b0 b1 b2 b3 : Nat) : Nat :=
  b0 + b1 * 256 + b2 * 65536 + b3 * 16777216

/-- 32-bit word from four big-endian bytes. -/
def beWord (b0 b1 b2 b3 : Nat) : Nat :=
  b3 + b2 * 256 + b1 * 65536 + b0 * 16777216

/-- Left rotation of a 32-bit word. -/
def rotl32 (x n : Nat) : Nat :=
  ((x <<< n) ||| (x >>> (32 - n))) % 4294967296

/-- Bitwise complement on 32-bit words. -/
def not32 (x : Nat) : Nat := 4294967295 ^^^ x

/-- Splits a byte list into 64-byte chunks (fuel-based so that the
kernel can evaluate it by reduction). -/
def chunks64Aux : Nat → List Nat → List (List Nat)
  | 0, _ => []
  | _, [] => []
  | fuel + 1, a :: l => ((a :: l).take 64) :: chunks64Aux fuel ((a :: l).drop 64)

/-- Splits a byte list into 64-byte chunks. -/
def chunks64 (l : List Nat) : List (List Nat) :=
  chunks64Aux l.length l

/- ---------------------------------------------------------------
   MD5 (RFC 1321) — the model of crypto.createHash MD5 used by
   the http-auth Digest authenticator.
--------------------------------------------------------------- -/

/-- Round constants of MD5 (floor(abs(sin(i+1)) * 2^32)). -/
def md5K : List Nat :=
  [0xd76aa478, 0xe8c7b756, 0x242070db, 0xc1bdceee,
   0xf57c0faf, 0x4787c62a, 0xa8304613, 0xfd469501,
   0x698098d8, 0x8b44f7af, 0xffff5bb1, 0x895cd7be,
   0x6b901122, 0xfd987193, 0xa679438e, 0x49b40821,
   0xf61e2562, 0xc040b340, 0x265e5a51, 0xe9b6c7aa,
   0xd62f105d, 0x02441453, 0xd8a1e681, 0xe7d3fbc8,
   0x21e1cde6, 0xc33707d6, 0xf4d50d87, 0x455a14ed,
   0xa9e3e905, 0xfcefa3f8, 0x676f02d9, 0x8d2a4c8a,
   0xfffa3942, 0x8771f681, 0x6d9d6122, 0xfde5380c,
   0xa4beea44, 0x4bdecfa9, 0xf6bb4b60, 0xbebfbc70,
   0x289b7ec6, 0xeaa127fa, 0xd4ef3085, 0x04881d05,
   0xd9d4d039, 0xe6db99e5, 0x1fa27cf8, 0xc4ac5665,
   0xf4292244, 0x432aff97, 0xab9423a7, 0xfc93a039,
   0x655b59c3, 0x8f0ccc92, 0xffeff47d, 0x85845dd1,
   0x6fa87e4f, 0xfe2ce6e0, 0xa3014314, 0x4e0811a1,
   0xf7537e82, 0xbd3af235, 0x2ad7d2bb, 0xeb86d391]

/-- Per-round left-rotation amounts of MD5. -/
def md5S : List Nat :=
  [7, 12, 17, 22, 7, 12, 17, 22, 7, 12, 17, 22, 7, 12, 17, 22,
   5, 9, 14, 20, 5, 9, 14, 20, 5, 9, 14, 20, 5, 9, 14, 20,
   4, 11, 16, 23, 4, 11, 16, 23, 4, 11, 16, 23, 4, 11, 16, 23,
   6, 10, 15, 21, 6, 10, 15, 21, 6, 10, 15, 21, 6, 10, 15, 21]

/-- Nonlinear function of MD5 round i. -/
def md5F (i b c d : Nat) : Nat :=
  if i < 16 then (b &&& c) ||| (not32 b &&& d)
  else if i < 32 then (d &&& b) ||| (not32 d &&& c)
  else if i < 48 then b ^^^ c ^^^ d
  else c ^^^ (b ||| not32 d)

/-- Message-word index of MD5 round i. -/
def md5G (i : Nat) : Nat :=
  if i < 16 then i
  else if i < 32 then (5 * i + 1) % 16
  else if i < 48 then (3 * i + 5) % 16
  else (7 * i) % 16

/-- Message schedule of one 64-byte MD5/SHA chunk: 16 little-endian words. -/
def leWords : List Nat → List Nat
  | b0 :: b1 :: b2 :: b3 :: rest => leWord b0 b1 b2 b3 :: leWords rest
  | _ => []

/-- One MD5 round: transforms the (a,b,c,d) state. -/
def md5Round (w : List Nat) (st : Nat × Nat × Nat × Nat) (i : Nat) :
    Nat × Nat × Nat × Nat :=
  let (a, b, c, d) := st
  let f := (md5F i b c d + a + md5K.getD i 0 + w.getD (md5G i) 0) % 4294967296
  (d, (b + rotl32 f (md5S.getD i 0)) % 4294967296, b, c)

/-- Processes one 64-byte chunk into the running MD5 state. -/
def md5Chunk (st : Nat × Nat × Nat × Nat) (chunk : List Nat) :
    Nat × Nat × Nat × Nat :=
  let w := leWords chunk
  let (a, b, c, d) := (List.range 64).foldl (md5Round w) st
  ((st.1 + a) % 4294967296, (st.2.1 + b) % 4294967296,
   (st.2.2.1 + c) % 4294967296, (st.2.2.2 + d) % 4294967296)

/-- MD5 padding: 0x80, zeros to 56 mod 64, 8-byte little-endian bit length. -/
def md5Pad (msg : List Nat) : List Nat :=
  msg ++ [0x80] ++ List.replicate ((119 - msg.length % 64) % 64) 0
      ++ leBytes 8 (msg.length * 8)

/-- MD5 digest of a byte list, as 16 bytes. -/
def md5Bytes (msg : List Nat) : List Nat :=
  let (a, b, c, d) :=
    (chunks64 (md5Pad msg)).foldl md5Chunk
      (0x67452301, 0xefcdab89, 0x98badcfe, 0x10325476)
  leBytes 4 a ++ leBytes 4 b ++ leBytes 4 c ++ leBytes 4 d

/-- Model of the http-auth module function md5Hash: lower-case hex MD5
of the UTF-8 bytes of a string. -/
def md5Hash (s : String) : String :=
  bytesToHex (md5Bytes (strBytes s))


/- ---------------------------------------------------------------
   SHA-1 (RFC 3174) — the model of crypto.createHash sha1 used by
   the WS-Security UsernameToken digest.
--------------------------------------------------------------- -/

/-- Message schedule words of one chunk: 16 big-endian words. -/
def beWords : List Nat → List Nat
  | b0 :: b1 :: b2 :: b3 :: rest => beWord b0 b1 b2 b3 :: beWords rest
  | _ => []

/-- Extends the 16 schedule words to 80 by rotated xor. -/
def sha1Extend : Nat → List Nat → List Nat
  | 0, w => w
  | fuel + 1, w =>
    let n := w.length
    let x := rotl32 (w.getD (n - 3) 0 ^^^ w.getD (n - 8) 0 ^^^
                     w.getD (n - 14) 0 ^^^ w.getD (n - 16) 0) 1
    sha1Extend fuel (w ++ [x])

/-- Round function of SHA-1 for round i. -/
def sha1F (i b c d : Nat) : Nat :=
  if i < 20 then (b &&& c) ||| (not32 b &&& d)
  else if i < 40 then b ^^^ c ^^^ d
  else if i < 60 then (b &&& c) ||| (b &&& d) ||| (c &&& d)
  else b ^^^ c ^^^ d

/-- Round constant of SHA-1 for round i. -/
def sha1KC (i : Nat) : Nat :=
  if i < 20 then 0x5A827999
  else if i < 40 then 0x6ED9EBA1
  else if i < 60 then 0x8F1BBCDC
  else 0xCA62C1D6

/-- One SHA-1 round on the (a,b,c,d,e) state. -/
def sha1Round (w : List Nat) (st : Nat × Nat × Nat × Nat × Nat) (i : Nat) :
    Nat × Nat × Nat × Nat × Nat :=
  let (a, b, c, d, e) := st
  let t := (rotl32 a 5 + sha1F i b c d + e + sha1KC i + w.getD i 0) % 4294967296
  (t, a, rotl32 b 30, c, d)

/-- Processes one 64-byte chunk into the running SHA-1 state. -/
def sha1Chunk (st : Nat × Nat × Nat × Nat × Nat) (chunk : List Nat) :
    Nat × Nat × Nat × Nat × Nat :=
  let w := sha1Extend 64 (beWords chunk)
  let (a, b, c, d, e) := (List.range 80).foldl (sha1Round w) st
  ((st.1 + a) % 4294967296, (st.2.1 + b) % 4294967296,
   (st.2.2.1 + c) % 4294967296, (st.2.2.2.1 + d) % 4294967296,
   (st.2.2.2.2 + e) % 4294967296)

/-- SHA-1 padding: 0x80, zeros to 56 mod 64, 8-byte big-endian bit length. -/
def sha1Pad (msg : List Nat) : List Nat :=
  msg ++ [0x80] ++ List.replicate ((119 - msg.length % 64) % 64) 0
      ++ beBytes 8 (msg.length * 8)

/-- SHA-1 digest of a byte list, as 20 bytes. -/
def sha1Bytes (msg : List Nat) : List Nat :=
  let (a, b, c, d, e) :=
    (chunks64 (sha1Pad msg)).foldl sha1Chunk
      (0x67452301, 0xEFCDAB89, 0x98BADCFE, 0x10325476, 0xC3D2E1F0)
  beBytes 4 a ++ beBytes 4 b ++ beBytes 4 c ++ beBytes 4 d ++ beBytes 4 e


/- ---------------------------------------------------------------
   Base64 (the standard alphabet with = padding, as produced by
   Buffer.toString base64).
--------------------------------------------------------------- -/

/-- Standard base64 alphabet. -/
def b64Alphabet : List Char :=
  "ABCDEFGHIJKLMNOPQRSTUVWXYZabcdefghijklmnopqrstuvwxyz0123456789+/".data

/-- Character of one 6-bit group. -/
def b64Char (n : Nat) : Char := b64Alphabet.getD n 'A'

/-- Base64 characters of a byte list, processed in 3-byte groups. -/
def base64Chars : List Nat → List Char
  | [] => []
  | [a] => [b64Char (a >>> 2), b64Char ((a &&& 3) <<< 4), '=', '=']
  | [a, b] => [b64Char (a >>> 2), b64Char (((a &&& 3) <<< 4) ||| (b >>> 4)),
               b64Char ((b &&& 15) <<< 2), '=']
  | a :: b :: c :: rest =>
    b64Char (a >>> 2) :: b64Char (((a &&& 3) <<< 4) ||| (b >>> 4)) ::
    b64Char (((b &&& 15) <<< 2) ||| (c >>> 6)) :: b64Char (c &&& 63) ::
    base64Chars rest

/-- Base64 rendering of a byte list. -/
def base64 (l : List Nat) : String := String.mk (base64Chars l)


/- ---------------------------------------------------------------
   ISO-8601 rendering of a millisecond timestamp — the model of the
   JavaScript Date.prototype.toISOString used by the UsernameToken.
   Calendar conversion uses the standard civil-from-days algorithm.
--------------------------------------------------------------- -/

/-- Decimal rendering of a Nat padded to two digits. -/
def pad2 (n : Nat) : String := if n < 10 then "0" ++ toString n else toString n

/-- Decimal rendering of a Nat padded to three digits. -/
def pad3 (n : Nat) : String :=
  if n < 10 then "00" ++ toString n
  else if n < 100 then "0" ++ toString n else toString n

/-- Decimal rendering of a Nat padded to four digits. -/
def pad4 (n : Nat) : String :=
  if n < 10 then "000" ++ toString n
  else if n < 100 then "00" ++ toString n
  else if n < 1000 then "0" ++ toString n else toString n

/-- Gregorian (year, month, day) of a day count since 1970-01-01. -/
def civilFromDays (z0 : Int) : Int × Nat × Nat :=
  let z := z0 + 719468
  let era := z.ediv 146097
  let doe := (z.emod 146097).toNat
  let yoe := (doe - doe / 1460 + doe / 36524 - doe / 146096) / 365
  let y : Int := (yoe : Int) + era * 400
  let doy := doe - (365 * yoe + yoe / 4 - yoe / 100)
  let mp := (5 * doy + 2) / 153
  let d := doy - (153 * mp + 2) / 5 + 1
  let m := if mp < 10 then mp + 3 else mp - 9
  (if m ≤ 2 then y + 1 else y, m, d)

/-- Model of Date.prototype.toISOString: renders a timestamp in
milliseconds since the epoch as YYYY-MM-DDTHH:mm:ss.sssZ. -/
def toISOString (t : Int) : String :=
  let ms := (t.emod 86400000).toNat
  let days := t.ediv 86400000
  let c := civilFromDays days
  pad4 c.1.toNat ++ "-" ++ pad2 c.2.1 ++ "-" ++ pad2 c.2.2 ++ "T" ++
    pad2 (ms / 3600000) ++ ":" ++ pad2 (ms / 60000 % 60) ++ ":" ++
    pad2 (ms / 1000 % 60) ++ "." ++ pad3 (ms % 1000) ++ "Z"


/- ---------------------------------------------------------------
   Generic string helpers mirroring the JavaScript operations used
   by the sources (String.prototype.includes, template rendering of
   possibly-undefined values, object key lookup).
--------------------------------------------------------------- -/

/-- Whether a character list starts with the given needle. -/
def startsWithList : List Char → List Char → Bool
  | _, [] => true
  | [], _ :: _ => false
  | h :: hs, n :: ns => h == n && startsWithList hs ns

/-- Whether the needle occurs inside the haystack list. -/
def hasInfixList : List Char → List Char → Bool
  | [], needle => needle.isEmpty
  | h :: t, needle => startsWithList (h :: t) needle || hasInfixList t needle

/-- Model of String.prototype.includes. -/
def containsSubstring (hay needle : String) : Bool :=
  hasInfixList hay.data needle.data

/-- Split on a single separator character, keeping empty pieces — the
semantics of the JS String.prototype.split with a one-character
separator (kernel-reducible, unlike String.splitOn). -/
def splitOnCharAux (sep : Char) : List Char → List Char → List String
  | [], cur => [String.mk cur.reverse]
  | c :: r, cur =>
    if c == sep then String.mk cur.reverse :: splitOnCharAux sep r []
    else splitOnCharAux sep r (c :: cur)

/-- Split a string on a separator character. -/
def splitOnChar (sep : Char) (s : String) : List String :=
  splitOnCharAux sep s.data []

/-- Template-literal rendering of a possibly-undefined string value. -/
def jsStr : Option String → String
  | some s => s
  | none => "undefined"

/-- Lookup in an association list of string keys (a JS object model). -/
def lookupParam (ps : List (String × String)) (k : String) : Option String :=
  (ps.find? (fun p => p.1 == k)).map (fun p => p.2)

/-- Assignment into an association list: overwrites an existing key in
place, otherwise appends (JS object assignment order semantics). -/
def upsertParam : List (String × String) → String → String → List (String × String)
  | [], k, v => [(k, v)]
  | (k0, v0) :: rest, k, v =>
    if k0 == k then (k0, v) :: rest else (k0, v0) :: upsertParam rest k v

/- ---------------------------------------------------------------
   http-auth.js — challenge parsing.  The source tokenizes the
   WWW-Authenticate header with the global regex
     ([a-zA-Z]+)\s*=\s*"?((?<=").*?(?=")|.*?(?=,?\s*[a-zA-Z]+\s*=)|.+[^=])
   executed in a loop; the embedding below is a direct backtracking
   implementation of that pattern (alternatives tried left to right,
   lazy and greedy quantifiers as in the regex).
--------------------------------------------------------------- -/

/-- Whitespace class of the regex \s (the characters occurring in headers). -/
def isWsChar (c : Char) : Bool :=
  c == ' ' || c == '\t' || c == '\n' || c == '\r' || c == '\x0b' || c == '\x0c'

/-- ASCII letter class [a-zA-Z]. -/
def isAsciiLetter (c : Char) : Bool :=
  ('a' ≤ c && c ≤ 'z') || ('A' ≤ c && c ≤ 'Z')

/-- Skips \s* characters. -/
def skipWsChars (l : List Char) : List Char := l.dropWhile isWsChar

/-- Lazy match .*? up to the first position where the stop condition
holds; fails when a newline is reached first (the dot does not match
newlines) or the input ends. -/
def lazyUntil (stop : List Char → Bool) : List Char → Option (List Char × List Char)
  | [] => if stop [] then some ([], []) else none
  | c :: r =>
    if stop (c :: r) then some ([], c :: r)
    else if c == '\n' then none
    else (lazyUntil stop r).map (fun pr => (c :: pr.1, pr.2))

/-- Lookahead (?=,?\s*[a-zA-Z]+\s*=): the position is followed by an
optional comma, spaces, a key and an equals sign. -/
def lookKeyEq (l : List Char) : Bool :=
  let l1 := match l with
    | ',' :: r => r
    | _ => l
  let l2 := skipWsChars l1
  let key := l2.takeWhile isAsciiLetter
  !key.isEmpty &&
    (match skipWsChars (l2.drop key.length) with
     | '=' :: _ => true
     | _ => false)

/-- Greedy match of the third alternative .+[^=] (at least two
characters, the first block newline-free, the final character not an
equals sign); tries the longest dot-run first, like the regex engine. -/
def alt3Aux (l : List Char) : Nat → Option (List Char × List Char)
  | 0 => none
  | p + 1 =>
    match l.get? (p + 1) with
    | some ch =>
      if ch == '=' then alt3Aux l p
      else some (l.take (p + 2), l.drop (p + 2))
    | none => alt3Aux l p

/-- Entry point of the .+[^=] alternative. -/
def alt3Match (l : List Char) : Option (List Char × List Char) :=
  alt3Aux l (min (l.takeWhile (fun c => c ≠ '\n')).length (l.length - 1))

/-- The value alternatives that do not need a preceding quote. -/
def valueNoQuote (l : List Char) : Option (List Char × List Char) :=
  match lazyUntil lookKeyEq l with
  | some r => some r
  | none => alt3Match l

/-- Attempts the full pattern at the current position, returning the
captured key and value and the remaining input after the match. -/
def tryMatchAt (l : List Char) : Option ((String × String) × List Char) :=
  let key := l.takeWhile isAsciiLetter
  if key.isEmpty then none
  else
    match skipWsChars (l.drop key.length) with
    | '=' :: rest2 =>
      let v0 := skipWsChars rest2
      let result :=
        match v0 with
        | '"' :: w =>
          -- the optional quote is consumed first; with it the
          -- lookbehind alternative applies, and on total failure the
          -- engine backtracks to the unquoted alternatives
          (match lazyUntil (fun s => s.head? == some '"') w with
           | some r => some r
           | none =>
             match valueNoQuote w with
             | some r => some r
             | none => valueNoQuote v0)
        | _ => valueNoQuote v0
      result.map (fun pr => ((String.mk key, String.mk pr.1), pr.2))
    | _ => none

/-- The exec loop of parseAuthString: scans for successive matches,
storing each nonempty captured value under its key. -/
def execLoop : Nat → List Char → List (String × String) → List (String × String)
  | 0, _, acc => acc
  | fuel + 1, l, acc =>
    match l with
    | [] => acc
    | c :: r =>
      match tryMatchAt (c :: r) with
      | some ((k, v), rest) =>
        execLoop fuel rest (if v ≠ "" then upsertParam acc k v else acc)
      | none => execLoop fuel r acc

/-- Parsed WWW-Authenticate data: scheme word and key/value parameters. -/
structure AuthData where
  authType : String
  authParams : List (String × String)
  deriving Repr, DecidableEq

/-- Model of the http-auth module function parseAuthString. -/
def parseAuthString (header : String) : AuthData :=
  { authType := (splitOnChar ' ' header).headD ""
    authParams := execLoop header.data.length header.data [] }


/- ---------------------------------------------------------------
   http-auth.js — Authorization header construction.
--------------------------------------------------------------- -/

/-- Model of createClientNonce: the requested number of random bytes
(drawn from the given entropy oracle, as Math.random is in the source),
hex encoded. -/
def createClientNonce (rng : Nat → Nat) (length : Nat) : String :=
  bytesToHex ((List.range length).map (fun i => rng i % 256))

/-- Model of buildBasicAuthHeaderString. -/
def buildBasicAuthHeaderString (user pass : String) : String :=
  "Basic " ++ base64 (strBytes (user ++ ":" ++ pass))

/-- The args object accumulated by buildDigestAuthHeaderString, in
insertion order, or the error thrown for qop auth-int.  Undefined
values render as the string undefined, as JS template literals do. -/
def digestAuthArgs (authParams : List (String × String))
    (path method user pass clientNonce : String) :
    Except String (List (String × String)) :=
  let realm := lookupParam authParams "realm"
  let nonce := lookupParam authParams "nonce"
  let algorithm := lookupParam authParams "algorithm"
  let qop := lookupParam authParams "qop"
  let ha1 : Option String :=
    if algorithm = none ∨ algorithm = some "MD5" then
      some (md5Hash (user ++ ":" ++ jsStr realm ++ ":" ++ pass))
    else none
  let ha2 : Option String :=
    if qop = none ∨ qop = some "auth" then
      some (md5Hash (method ++ ":" ++ path))
    else none
  let base := [("username", user), ("realm", jsStr realm),
               ("nonce", jsStr nonce), ("uri", path)]
  match qop with
  | none =>
    .ok (base ++
      [("response", md5Hash (jsStr ha1 ++ ":" ++ jsStr nonce ++ ":" ++ jsStr ha2))])
  | some q =>
    let nonceCount := "00000001"
    let ha1s :=
      if algorithm = some "MD5-sess" then
        some (md5Hash (jsStr ha1 ++ ":" ++ jsStr nonce ++ ":" ++ clientNonce))
      else ha1
    if q = "auth-int" then .error "qop = auth-int currently not supported"
    else
      .ok (base ++
        [("cnonce", clientNonce), ("nc", nonceCount), ("qop", q),
         ("algorithm", jsStr algorithm),
         ("response", md5Hash (jsStr ha1s ++ ":" ++ jsStr nonce ++ ":" ++
            nonceCount ++ ":" ++ clientNonce ++ ":" ++ q ++ ":" ++ jsStr ha2))])

/-- Model of buildDigestAuthHeaderString: renders the args object as a
comma-joined key="value" list behind the Digest marker. -/
def buildDigestAuthHeaderString (authParams : List (String × String))
    (path method user pass clientNonce : String) : Except String String :=
  (digestAuthArgs authParams path method user pass clientNonce).map
    (fun args =>
      "Digest " ++
        String.intercalate ","
          (args.map (fun p => p.1 ++ "=\"" ++ p.2 ++ "\"")))

/-- Model of buildAuthHeaderString: dispatches on the challenge scheme. -/
def buildAuthHeaderString (authData : AuthData)
    (path method user pass clientNonce : String) : Except String String :=
  match authData.authType with
  | "Digest" =>
    buildDigestAuthHeaderString authData.authParams path method user pass clientNonce
  | "Basic" => .ok (buildBasicAuthHeaderString user pass)
  | other => .error ("Unsupported authentication type: " ++ other)

/-- Response shape seen by the http-auth request callback. -/
structure AuthHttpResponse where
  statusCode : Nat
  wwwAuthenticate : Option String
  deriving Repr, DecidableEq

/-- Options accepted by the http-auth request function. -/
structure AuthReqOptions where
  method : Option String
  path : String
  user : String
  pass : String

/-- Model of the http-auth request function.  The server collaborator
maps the Authorization header of a round trip to its response; the
returned trace lists the Authorization headers of the issued round
trips in order.  A 401 first response bearing a WWW-Authenticate
header triggers exactly one retry with a built Authorization header;
every other first response, and every second response, is delivered
to the callback as is. -/
def httpAuthRequest (server : Option String → AuthHttpResponse)
    (options : AuthReqOptions) (rng : Nat → Nat) :
    Except String (List (Option String) × AuthHttpResponse) :=
  let method := options.method.getD "GET"
  let res := server none
  match res.wwwAuthenticate with
  | some authHeader =>
    if res.statusCode = 401 then
      match buildAuthHeaderString (parseAuthString authHeader)
          options.path method options.user options.pass
          (createClientNonce rng 32) with
      | .ok auth => .ok ([none, some auth], server (some auth))
      | .error e => .error e
    else .ok ([none], res)
  | none => .ok ([none], res)

/- ---------------------------------------------------------------
   soap.js — the SOAP transport layer.  The XML collaborator
   (xml2js) turns a payload into a tag-keyed tree; values are either
   text or nested objects (attribute maps live under the tag keys and
   text under the distinguished underscore key).
--------------------------------------------------------------- -/

/-- Parsed XML value tree as produced by the xml2js collaborator. -/
inductive JsonVal where
  | str : String → JsonVal
  | obj : List (String × JsonVal) → JsonVal
  deriving Repr

/-- Property lookup on a parsed tree; key access on a text leaf gives
undefined, as JS property access on a string primitive does. -/
def jsonLookup (v : JsonVal) (k : String) : Option JsonVal :=
  match v with
  | .str _ => none
  | .obj fs => (fs.find? (fun p => p.1 == k)).map (fun p => p.2)

/-- Unwraps a text-attribute wrapper: an object value is replaced by
its underscore entry, any other value is kept (the typeof object test
in the source). -/
def unwrapText (v : Option JsonVal) : Option JsonVal :=
  match v with
  | some (.obj fs) => jsonLookup (.obj fs) "_"
  | other => other

/-- String rendering of a possibly-undefined tree value in a JS
template literal. -/
def jsDisplay : Option JsonVal → String
  | none => "undefined"
  | some (.str s) => s
  | some (.obj _) => "[object Object]"

/-- Error values produced by the transport layer, tagged by the
rejection site that creates them in the source. -/
inductive SoapError where
  | network (msg : String)
  | http (msg : String)
  | xmlParse (msg : String)
  | unsupportedOperation (msg : String)
  deriving Repr, DecidableEq

/-- HTTP status data carried into formatError. -/
structure HttpErrorInfo where
  code : Nat
  message : String
  deriving Repr, DecidableEq

/-- ONVIF fault data carried into formatError. -/
structure OnvifErrorInfo where
  message : String
  detail : String
  deriving Repr, DecidableEq

/-- Model of getOnvifErrorMessage.  A none result models a thrown
extraction (a missing intermediate key, or a non-string reason text on
which the later includes call would throw); such a throw is caught
upstream and reported through the XML-error path. -/
def getOnvifErrorMessage (parsed : JsonVal) : Option String :=
  match jsonLookup parsed "Body" with
  | none => none
  | some body =>
    match jsonLookup body "Fault" with
    | none => none
    | some fault =>
      match jsonLookup fault "Reason" with
      | none => none
      | some reason =>
        match unwrapText (jsonLookup reason "Text") with
        | some (.str s) => some s
        | _ => none

/-- Model of getOnvifErrorDetail; a none result models a thrown
extraction (missing Body, Fault or Detail key). -/
def getOnvifErrorDetail (parsed : JsonVal) : Option String :=
  match jsonLookup parsed "Body" with
  | none => none
  | some body =>
    match jsonLookup body "Fault" with
    | none => none
    | some fault =>
      match jsonLookup fault "Detail" with
      | none => none
      | some detail => some (jsDisplay (unwrapText (jsonLookup detail "Text")))

/-- Model of parseOnvifError: reason and detail texts of a SOAP Fault
body; none when extraction throws in the source. -/
def parseOnvifError (parsed : JsonVal) : Option OnvifErrorInfo :=
  match getOnvifErrorMessage parsed, getOnvifErrorDetail parsed with
  | some m, some d => some { message := m, detail := d }
  | _, _ => none

/-- The template chunk appended for an HTTP status. -/
def httpStatusTag (he : HttpErrorInfo) : String :=
  " [HTTP status: " ++ toString he.code ++ " " ++ he.message ++ "]"

/-- The template chunk appended for an XML parsing error. -/
def xmlErrorTag (xe : String) : String :=
  " [XML parsing error: " ++ xe ++ "]"

/-- The template chunk appended for an ONVIF fault. -/
def onvifErrorTag (oe : OnvifErrorInfo) : String :=
  " [Onvif error: " ++ oe.message ++ " - " ++ oe.detail ++ "]"

/-- Model of formatError (helpers.js soap layer): builds the message of
the rejection Error, appending one template chunk per present argument.
An HTTP 400 whose fault reason contains the text Sender not authorized
is reported as 401 Unauthorized and the fault text is dropped;
otherwise the status, XML error and fault text are appended in order. -/
def formatError (methodName : String) (httpError : Option HttpErrorInfo)
    (xmlError : Option String) (onvifError : Option OnvifErrorInfo) : String :=
  let message := methodName ++ "():"
  let senderNotAuth : Bool :=
    match httpError, onvifError with
    | some he, some oe =>
      he.code == 400 && containsSubstring oe.message "Sender not authorized"
    | _, _ => false
  if senderNotAuth then message ++ " [HTTP status: 401 Unauthorized]"
  else
    let m1 :=
      match httpError with
      | some he => message ++ httpStatusTag he
      | none => message
    let m2 :=
      match xmlError with
      | some xe => m1 ++ xmlErrorTag xe
      | none => m1
    match onvifError with
    | some oe => m2 ++ onvifErrorTag oe
    | none => m2

/-- Model of soapResponseHandler: resolves the body text on 200 and
otherwise rejects with a formatError message built from the status and
the attempted SOAP Fault parse of the body (the parse outcome of the
xml2js collaborator is passed in explicitly). -/
def soapResponseHandler (methodName : String) (statusCode : Nat)
    (statusMessage : String) (xml : String)
    (parsedBody : Except String JsonVal) : Except SoapError String :=
  if statusCode = 200 then .ok xml
  else
    let httpError : HttpErrorInfo := { code := statusCode, message := statusMessage }
    if xml = "" then .error (.http (formatError methodName (some httpError) none none))
    else
      match parsedBody with
      | .ok parsed =>
        match parseOnvifError parsed with
        | some oe =>
          .error (.http (formatError methodName (some httpError) none (some oe)))
        | none =>
          -- fault extraction threw; the thrown error reaches the catch
          -- and is reported as the xmlError argument
          .error (.http (formatError methodName (some httpError) (some "TypeError") none))
      | .error e => .error (.http (formatError methodName (some httpError) (some e) none))

/-- Model of parseValidResponse: on a parsed 200 body, the sub-tree
under Body/{methodName}Response is returned; a missing Body key or a
missing response key is reported as the does-not-support error. -/
def parseValidResponse (response : JsonVal) (methodName : String) :
    Except SoapError JsonVal :=
  let responseKey := methodName ++ "Response"
  let unsupported : SoapError :=
    .unsupportedOperation
      ("The device does not seem to support the " ++ methodName ++ "() method.")
  match jsonLookup response "Body" with
  | none => .error unsupported
  | some body =>
    match jsonLookup body responseKey with
    | none => .error unsupported
    | some sub => .ok sub

/-- Wire response consumed by the SOAP transport (headers are carried
but the response handler never reads them). -/
structure SoapWireResponse where
  statusCode : Nat
  statusMessage : String
  wwwAuthenticate : Option String
  body : String
  deriving Repr

/-- Model of the soap.js request function: issues a single POST and
hands the single response to soapResponseHandler; no code path issues
a second request, so exactly one response is consumed from the server
trace.  The first component counts the HTTP round trips performed. -/
def soapHttpRequest (methodName : String) (responses : List SoapWireResponse)
    (parseBody : String → Except String JsonVal) : Nat × Except SoapError String :=
  match responses with
  | [] => (0, .error (.network "Network Error: "))
  | r :: _ =>
    (1, soapResponseHandler methodName r.statusCode r.statusMessage r.body
          (parseBody r.body))

/-- Model of requestCommand: transport round trip, XML parse of the
resolved body, then response-key validation. -/
def requestCommand (methodName : String) (responses : List SoapWireResponse)
    (parseBody : String → Except String JsonVal) : Nat × Except SoapError JsonVal :=
  let t := soapHttpRequest methodName responses parseBody
  (t.1,
    match t.2 with
    | .error e => .error e
    | .ok xml =>
      match parseBody xml with
      | .error pe => .error (.xmlParse pe)
      | .ok tree => parseValidResponse tree methodName)

/- ---------------------------------------------------------------
   helpers.js — parameter validation (isInvalidValue and its type
   dispatcher) over a model of the JS values that can reach it.
--------------------------------------------------------------- -/

/-- JS values as seen by getTypeOfValue.  Numbers are split by the
value-mod-one test of the source into integral and non-integral;
object-likes that fail the plain-object test are the unknown case. -/
inductive JsValue where
  | undef : JsValue
  | null : JsValue
  | jsBool : Bool → JsValue
  | jsInt : Int → JsValue
  | jsFloat : JsValue
  | jsStrV : String → JsValue
  | jsArr : List JsValue → JsValue
  | jsObj : List (String × JsValue) → JsValue
  | jsUnknown : JsValue

/-- Model of getTypeOfValue. -/
def getTypeOfValue : JsValue → String
  | .undef => "undefined"
  | .null => "null"
  | .jsArr _ => "array"
  | .jsBool _ => "boolean"
  | .jsStrV _ => "string"
  | .jsInt _ => "integer"
  | .jsFloat => "float"
  | .jsObj _ => "object"
  | .jsUnknown => "unknown"

/-- Length of a JS value for the empty checks (array length or string
length; other types never reach those branches). -/
def jsValueLength : JsValue → Nat
  | .jsArr l => l.length
  | .jsStrV s => s.length
  | _ => 0

/-- Whether the value is the empty string (the string empty check). -/
def jsValueIsEmptyString : JsValue → Bool
  | .jsStrV s => s == ""
  | _ => false

/-- Characters outside the printable ASCII range 0x20..0x7e (the class
of the first character regex in isInvalidValue). -/
def isNonPrintable (c : Char) : Bool :=
  c.toNat < 0x20 || 0x7e < c.toNat

/-- The checks of isInvalidValue after the type test: emptiness, then
the character classes for strings. -/
def isInvalidValueRest (value : JsValue) (vt : String) (allow_empty : Bool) : String :=
  if !allow_empty && vt == "array" && jsValueLength value == 0 then
    "The value must not be an empty array."
  else if !allow_empty && vt == "string" && jsValueIsEmptyString value then
    "The value must not be an empty string."
  else
    match value with
    | .jsStrV s =>
      if s.data.any isNonPrintable then
        "The value must consist of ascii characters."
      else if s.data.any (fun c => c == '<' || c == '>') then
        "Invalid characters were found in the value (\"<\", \">\")"
      else ""
    | _ => ""

/-- Model of isInvalidValue: returns the error text, empty on success;
the type check comes first, then the emptiness and character checks. -/
def isInvalidValue (value : JsValue) (type_ : String) (allow_empty : Bool) : String :=
  let vt := getTypeOfValue value
  if type_ == "float" then
    if !(vt == "float" || vt == "integer") then
      "The type of the value must be \"" ++ type_ ++ "\"."
    else isInvalidValueRest value vt allow_empty
  else
    if vt ≠ type_ then
      "The type of the value must be \"" ++ type_ ++ "\"."
    else isInvalidValueRest value vt allow_empty

/- ---------------------------------------------------------------
   helpers.js / soap.js — WS-Security UsernameToken and envelope
   construction.
--------------------------------------------------------------- -/

/-- Model of createNonce: the requested number of bytes drawn from the
entropy oracle (Math.random in the source). -/
def createNonce (rng : Nat → Nat) (digit : Nat) : List Nat :=
  (List.range digit).map (fun i => rng i % 256)

/-- Model of createSoapUserToken.  The wall clock (milliseconds since
the epoch) and the entropy oracle are explicit inputs; the source
guards replacing a falsy diff by 0 and a falsy password by the empty
string are identities under this typing. -/
def createSoapUserToken (now timeDiff : Int) (rng : Nat → Nat)
    (user pass : String) : String :=
  let date := toISOString (now + timeDiff)
  let nonceBuffer := createNonce rng 16
  let nonceBase64 := base64 nonceBuffer
  let digest := base64 (sha1Bytes (nonceBuffer ++ strBytes date ++ strBytes pass))
  "<Security s:mustUnderstand=\"1\" xmlns=\"http://docs.oasis-open.org/wss/2004/01/oasis-200401-wss-wssecurity-secext-1.0.xsd\">" ++
  "  <UsernameToken>" ++
  "    <Username>" ++ user ++ "</Username>" ++
  "    <Password Type=\"http://docs.oasis-open.org/wss/2004/01/oasis-200401-wss-username-token-profile-1.0#PasswordDigest\">" ++ digest ++ "</Password>" ++
  "    <Nonce EncodingType=\"http://docs.oasis-open.org/wss/2004/01/oasis-200401-wss-soap-message-security-1.0#Base64Binary\">" ++ nonceBase64 ++ "</Nonce>" ++
  "    <Created xmlns=\"http://docs.oasis-open.org/wss/2004/01/oasis-200401-wss-wssecurity-utility-1.0.xsd\">" ++ date ++ "</Created>" ++
  "  </UsernameToken>" ++
  "</Security>"

/-- Fuel-based collapse of whitespace runs between a closing and an
opening angle bracket: the replace of the pattern >\s+< by >< applied
to the finished envelope. -/
def collapseAngleWsAux : Nat → List Char → List Char
  | 0, l => l
  | _ + 1, [] => []
  | fuel + 1, c :: rest =>
    if c == '>' then
      let ws := rest.takeWhile isWsChar
      let after := rest.drop ws.length
      if !ws.isEmpty && after.head? == some '<' then
        '>' :: collapseAngleWsAux fuel after
      else '>' :: collapseAngleWsAux fuel rest
    else c :: collapseAngleWsAux fuel rest

/-- Whitespace collapse between tags. -/
def collapseAngleWs (s : String) : String :=
  String.mk (collapseAngleWsAux s.data.length s.data)

/-- Model of createRequestSoap: wraps the body in the envelope
skeleton, injecting the namespace attributes and, when a user name is
present, the UsernameToken header; the result is whitespace-collapsed
between tags. -/
def createRequestSoap (body : String) (xmlns : List String)
    (now diff : Int) (rng : Nat → Nat) (user pass : String) : String :=
  let soap :=
    "<?xml version=\"1.0\" encoding=\"UTF-8\"?>" ++
    "<s:Envelope" ++
    "  xmlns:s=\"http://www.w3.org/2003/05/soap-envelope\"" ++
    String.join (xmlns.map (fun ns => " " ++ ns)) ++
    ">" ++
    "<s:Header>" ++
    (if user ≠ "" then createSoapUserToken now diff rng user pass else "") ++
    "</s:Header>" ++
    "<s:Body>" ++ body ++ "</s:Body>" ++
    "</s:Envelope>"
  collapseAngleWs soap

/- ---------------------------------------------------------------
   node-onvif.js — the WS-Discovery probe engine.  Datagram parsing
   first, then a discrete-event model of the timer and send flow.
--------------------------------------------------------------- -/

/-- Discovery constants of the source. -/
def DISCOVERY_RETRIES_MAX : Nat := 3

/-- Fixed interval between successive probe sends, in ms. -/
def DISCOVERY_RETRY_INTERVAL : Nat := 150

/-- Overall discovery timeout, in ms. -/
def DISCOVERY_TIMEOUT : Nat := 3000

/-- Split on runs of whitespace, the JS split with the regex \s+
(leading or trailing whitespace contributes empty pieces). -/
def splitWsAux : Nat → List Char → List Char → List String
  | 0, _, cur => [String.mk cur.reverse]
  | _, [], cur => [String.mk cur.reverse]
  | fuel + 1, c :: r, cur =>
    if isWsChar c then String.mk cur.reverse :: splitWsAux fuel (skipWsChars r) []
    else splitWsAux fuel r (c :: cur)

/-- Split a string on whitespace runs. -/
def splitWs (s : String) : List String := splitWsAux s.data.length s.data []

/-- Mutable record filled by parseDataFromXmlResponse. -/
structure ProbeData where
  urn : String
  xaddrs : List String
  scopes : List String
  types : List String
  deriving Repr, DecidableEq

/-- Coercion of a possibly-undefined tree value into the string model
of the urn field: undefined becomes the empty string (both falsy) and
an object keeps its later key coercion (both truthy). -/
def jsCoerceKeyString : Option JsonVal → String
  | none => ""
  | some (.str s) => s
  | some (.obj _) => "[object Object]"

/-- Text of a Scopes or Types entry under the typeof dispatch of the
source: a plain string directly, an object through its underscore
entry when that is a string, anything else is skipped. -/
def scopedText (v : Option JsonVal) : Option String :=
  match v with
  | some (.str s) => some s
  | some (.obj fs) =>
    match jsonLookup (.obj fs) "_" with
    | some (.str s) => some s
    | _ => none
  | _ => none

/-- Model of parseDataFromXmlResponse.  The try/catch of the source
keeps the mutations done before a throw, so a missing XAddrs string
returns the partially filled record. -/
def parseDataFromXmlResponse (xml : JsonVal) : ProbeData :=
  let d0 : ProbeData := { urn := "", xaddrs := [], scopes := [], types := [] }
  match jsonLookup xml "Body" with
  | none => d0
  | some body =>
    match jsonLookup body "ProbeMatches" with
    | none => d0
    | some probeMatches =>
      match jsonLookup probeMatches "ProbeMatch" with
      | none => d0
      | some probeMatch =>
        match jsonLookup probeMatch "EndpointReference" with
        | none => d0
        | some epr =>
          let d1 := { d0 with urn := jsCoerceKeyString (jsonLookup epr "Address") }
          match jsonLookup probeMatch "XAddrs" with
          | some (.str xs) =>
            { d1 with
              xaddrs := splitWs xs
              scopes := match scopedText (jsonLookup probeMatch "Scopes") with
                | some s => splitWs s
                | none => []
              types := match scopedText (jsonLookup probeMatch "Types") with
                | some s => splitWs s
                | none => [] }
          | _ => d1

/-- Device data extended with the scopes-derived display fields. -/
structure ScopedData where
  urn : String
  xaddrs : List String
  scopes : List String
  types : List String
  name : String
  hardware : String
  location : String
  deriving Repr, DecidableEq

/-- Last path segment of a scope URI (split on slash, then pop). -/
def lastSegment (scope : String) : String :=
  (splitOnChar '/' scope).getLastD ""

/-- Underscore-to-space replacement applied to derived names. -/
def replaceUnderscores (s : String) : String :=
  String.mk (s.data.map (fun c => if c == '_' then ' ' else c))

/-- One scope of the forEach in parseScopedData. -/
def applyScope (acc : ScopedData) (scope : String) : ScopedData :=
  if startsWithList scope.data "onvif://www.onvif.org/hardware/".data then
    { acc with hardware := lastSegment scope }
  else if startsWithList scope.data "onvif://www.onvif.org/location/".data then
    { acc with location := lastSegment scope }
  else if startsWithList scope.data "onvif://www.onvif.org/name/".data then
    { acc with name := replaceUnderscores (lastSegment scope) }
  else acc

/-- Model of parseScopedData: requires a truthy urn, a nonempty xaddrs
list and a nonempty scopes list, then derives the display fields by
fixed URI-prefix matching; otherwise the datagram maps to null. -/
def parseScopedData (data : ProbeData) : Option ScopedData :=
  if data.urn ≠ "" ∧ 0 < data.xaddrs.length ∧ 0 < data.scopes.length then
    some (data.scopes.foldl applyScope
      { urn := data.urn, xaddrs := data.xaddrs, scopes := data.scopes,
        types := data.types, name := "", hardware := "", location := "" })
  else none

/-- The urn-keyed device map of a probe session, in insertion order. -/
abbrev DeviceMap := List (String × ScopedData)

/-- Key lookup in the device map. -/
def lookupDevice (devices : DeviceMap) (urn : String) : Option ScopedData :=
  (devices.find? (fun p => p.1 == urn)).map (fun p => p.2)

/-- Model of setDeviceData: a null datagram or an already known urn is
a silent no-op, a fresh urn is inserted. -/
def setDeviceData (devices : DeviceMap) (data : Option ScopedData) : DeviceMap :=
  match data with
  | none => devices
  | some d =>
    if (lookupDevice devices d.urn).isSome then devices
    else devices ++ [(d.urn, d)]

/-- Model of createDeviceList: the device map values in insertion order. -/
def createDeviceList (devices : DeviceMap) : List ScopedData :=
  devices.map (fun e => e.2)

/-- Model of onUdpMessage: the parse chain applied to one datagram; a
datagram the XML collaborator rejects (the none input) is swallowed. -/
def onUdpMessage (devices : DeviceMap) (datagram : Option JsonVal) : DeviceMap :=
  match datagram with
  | none => devices
  | some xml => setDeviceData devices (parseScopedData (parseDataFromXmlResponse xml))

/-- Probe record of createProbe (socket handle, device map, the two
timer handles; a timer handle carries its absolute fire time). -/
structure Probe where
  udpSocketOpen : Bool
  devices : DeviceMap
  discovery_interval_timer : Option Nat
  discovery_timeout_timer : Option Nat
  deriving Repr, DecidableEq

/-- Full simulation state of one startProbe call: the probe record,
the remaining send queue length, the send log, the promise state and
the registry membership. -/
structure ProbeSim where
  probe : Probe
  queue : Nat
  sendTimes : List Nat
  resolvedAt : Option Nat
  result : Option (List ScopedData)
  registered : Bool
  deriving Repr, DecidableEq

/-- Model of clearProbeTimeouts with its two null checks. -/
def clearProbeTimeouts (p : Probe) : Probe :=
  let p1 :=
    if p.discovery_interval_timer.isSome then { p with discovery_interval_timer := none }
    else p
  if p1.discovery_timeout_timer.isSome then { p1 with discovery_timeout_timer := none }
  else p1

/-- Model of closeUdpSocket: an absent socket resolves immediately, an
open one is closed and nulled. -/
def closeUdpSocket (p : Probe) : Probe :=
  if !p.udpSocketOpen then p else { p with udpSocketOpen := false }

/-- Model of finishProbe at time t: clear both timers, close the
socket, remove the session from the registry and resolve the future
with the device list (a promise resolves only once). -/
def finishProbe (t : Nat) (s : ProbeSim) : ProbeSim :=
  let p := closeUdpSocket (clearProbeTimeouts s.probe)
  let s1 := { s with probe := p, registered := false }
  match s1.resolvedAt with
  | some _ => s1
  | none => { s1 with resolvedAt := some t, result := some (createDeviceList p.devices) }

/-- Model of one sendSoapRequest invocation at time t: an exhausted
queue resolves the send promise, whose continuation is finishProbe;
otherwise one request is sent and the next invocation is scheduled
after the retry interval. -/
def sendSoapRequestStep (t : Nat) (s : ProbeSim) : ProbeSim :=
  if s.queue = 0 then finishProbe t s
  else
    { s with
      queue := s.queue - 1
      sendTimes := s.sendTimes ++ [t]
      probe := { s.probe with
        discovery_interval_timer := some (t + DISCOVERY_RETRY_INTERVAL) } }

/-- Delivery of one datagram: a closed socket receives nothing. -/
def deliverDatagram (s : ProbeSim) (datagram : Option JsonVal) : ProbeSim :=
  if s.probe.udpSocketOpen then
    { s with probe := { s.probe with devices := onUdpMessage s.probe.devices datagram } }
  else s

/-- Whether a datagram time does not exceed a timer deadline. -/
def leOpt (t : Nat) : Option Nat → Bool
  | none => true
  | some u => t ≤ u

/-- Discrete-event loop: repeatedly fires the earliest pending event
(inbound datagram, interval timer or timeout timer; a datagram wins a
tie, the interval timer wins a tie against the timeout). -/
def simRun : Nat → ProbeSim → List (Nat × Option JsonVal) → ProbeSim
  | 0, s, _ => s
  | fuel + 1, s, dgs =>
    let ti := s.probe.discovery_interval_timer
    let tt := s.probe.discovery_timeout_timer
    match dgs with
    | (td, payload) :: rest =>
      if leOpt td ti && leOpt td tt then
        simRun fuel (deliverDatagram s payload) rest
      else
        match ti, tt with
        | some a, some b =>
          if a ≤ b then simRun fuel (sendSoapRequestStep a s) dgs
          else simRun fuel (finishProbe b s) dgs
        | some a, none => simRun fuel (sendSoapRequestStep a s) dgs
        | none, some b => simRun fuel (finishProbe b s) dgs
        | none, none => s
    | [] =>
      match ti, tt with
      | some a, some b =>
        if a ≤ b then simRun fuel (sendSoapRequestStep a s) []
        else simRun fuel (finishProbe b s) []
      | some a, none => simRun fuel (sendSoapRequestStep a s) []
      | none, some b => simRun fuel (finishProbe b s) []
      | none, none => s

/-- Model of startProbe after a successful bind: the timeout timer is
armed, the first send happens immediately, and the queue holds one
request per device type replicated by the retry count.  The datagram
list carries the arrival time and parsed payload of each inbound
message. -/
def startProbeSim (numTypes : Nat) (dgs : List (Nat × Option JsonVal))
    (fuel : Nat) : ProbeSim :=
  let s0 : ProbeSim :=
    { probe := { udpSocketOpen := true, devices := [],
                 discovery_interval_timer := none,
                 discovery_timeout_timer := some DISCOVERY_TIMEOUT }
      queue := DISCOVERY_RETRIES_MAX * numTypes
      sendTimes := []
      resolvedAt := none
      result := none
      registered := true }
  simRun fuel (sendSoapRequestStep 0 s0) dgs

/-- A well-formed ProbeMatch datagram tree with the given urn, as the
XML collaborator would deliver it. -/
def sampleProbeMatchXml (urn : String) : JsonVal :=
  .obj [("Body", .obj [("ProbeMatches", .obj [("ProbeMatch", .obj
    [("EndpointReference", .obj [("Address", .str urn)]),
     ("XAddrs", .str "http://192.168.0.10/onvif/device_service"),
     ("Scopes", .str "onvif://www.onvif.org/name/Foo_Bar onvif://www.onvif.org/hardware/X1"),
     ("Types", .str "dn:NetworkVideoTransmitter")])])])]

/- ---------------------------------------------------------------
   Concrete fixtures used by witness and counterexample theorems.
--------------------------------------------------------------- -/

/-- An HTTP server that answers a Digest challenge on the first,
unauthenticated request and 200 on any authenticated request. -/
def c1Server : Option String → AuthHttpResponse := fun h =>
  match h with
  | none => { statusCode := 401, wwwAuthenticate := some "Digest realm=\"R\", nonce=\"N\"" }
  | some _ => { statusCode := 200, wwwAuthenticate := none }

/-- Options of the snapshot-style request used as witness fixture. -/
def c1Options : AuthReqOptions :=
  { method := none, path := "/x", user := "admin", pass := "p" }

/-- A SOAP server trace answering 401 with a Digest challenge first
and 200 on a retry that never comes. -/
def c1SoapResponses : List SoapWireResponse :=
  [{ statusCode := 401, statusMessage := "Unauthorized",
     wwwAuthenticate := some "Digest realm=\"R\", nonce=\"N\"", body := "" },
   { statusCode := 200, statusMessage := "OK", wwwAuthenticate := none,
     body := "<ok/>" }]

/-- A concrete discovered device used by the C3 witness. -/
def c3DevA : ScopedData :=
  { urn := "urn:uuid:a", xaddrs := ["http://x"], scopes := ["s"], types := [],
    name := "first", hardware := "", location := "" }

/-- A later duplicate reply carrying the same urn but different data. -/
def c3DevB : ScopedData :=
  { urn := "urn:uuid:a", xaddrs := ["http://y"], scopes := ["s"], types := [],
    name := "second", hardware := "", location := "" }

/-- A parsed 200 body with a Body key but no GetFooResponse key. -/
def c6TreeMissing : JsonVal :=
  .obj [("Body", .obj [("SomethingElseResponse", .str "x")])]

/-- A parsed 200 body carrying the expected response key. -/
def c6TreePresent : JsonVal :=
  .obj [("Body", .obj [("GetFooResponse", .str "payload")])]

/-- Wire response of a successful SOAP exchange. -/
def c6Response : SoapWireResponse :=
  { statusCode := 200, statusMessage := "OK", wwwAuthenticate := none,
    body := "<xml/>" }

/- ---------------------------------------------------------------
   Sanity anchors for the crypto and date primitives.
--------------------------------------------------------------- -/

/-- Sanity anchor: the RFC 1321 test vector for the empty string. -/
theorem md5_vector_empty : md5Hash "" = "d41d8cd98f00b204e9800998ecf8427e" := by
  decide

/-- Sanity anchor: the RFC 1321 test vector for the string abc. -/
theorem md5_vector_abc : md5Hash "abc" = "900150983cd24fb0d6963f7d28e17f72" := by
  decide

/-- Sanity anchor: the RFC 3174 test vector for the string abc. -/
theorem sha1_vector_abc :
    bytesToHex (sha1Bytes (strBytes "abc")) =
      "a9993e364706816aba3e25717850c26c9cd0d89d" := by
  decide

/-- Sanity anchor: SHA-1 of the empty message. -/
theorem sha1_vector_empty :
    bytesToHex (sha1Bytes []) = "da39a3ee5e6b4b0d3255bfef95601890afd80709" := by
  decide

/-- Sanity anchor: classic base64 vectors. -/
theorem base64_vectors :
    base64 (strBytes "Man") = "TWFu" ∧ base64 (strBytes "Ma") = "TWE=" ∧
      base64 (strBytes "M") = "TQ==" := by
  decide

/-- Sanity anchor: the epoch renders as 1970-01-01T00:00:00.000Z. -/
theorem iso_vector_epoch : toISOString 0 = "1970-01-01T00:00:00.000Z" := by
  decide

/-- Sanity anchor: 2017-09-30T12:34:56.789Z is 1506774896789 ms. -/
theorem iso_vector_2017 :
    toISOString 1506774896789 = "2017-09-30T12:34:56.789Z" := by
  decide

/-- Sanity anchor: a typical Digest challenge parses into its pairs. -/
theorem parseAuthString_digest_example :
    parseAuthString "Digest realm=\"R\", nonce=\"N\", qop=\"auth\"" =
      { authType := "Digest"
        authParams := [("realm", "R"), ("nonce", "N"), ("qop", "auth")] } := by
  decide

/- ---------------------------------------------------------------
   Helper lemmas about the probe simulator.
--------------------------------------------------------------- -/

/-- Clearing the timers nulls both handles and touches nothing else. -/
theorem clearProbeTimeouts_spec (so : Bool) (dv : DeviceMap) (ti tt : Option Nat) :
    clearProbeTimeouts ⟨so, dv, ti, tt⟩ = ⟨so, dv, none, none⟩ := by
  cases ti <;> cases tt <;> rfl

/-- Closing the socket nulls the handle and touches nothing else. -/
theorem closeUdpSocket_spec (so : Bool) (dv : DeviceMap) (ti tt : Option Nat) :
    closeUdpSocket ⟨so, dv, ti, tt⟩ = ⟨false, dv, ti, tt⟩ := by
  cases so <;> rfl

/-- Field description of finishProbe on an unresolved session. -/
theorem finishProbe_unresolved (t : Nat) (s : ProbeSim) (h : s.resolvedAt = none) :
    finishProbe t s =
      { probe := ⟨false, s.probe.devices, none, none⟩
        queue := s.queue
        sendTimes := s.sendTimes
        resolvedAt := some t
        result := some (createDeviceList s.probe.devices)
        registered := false } := by
  obtain ⟨⟨so, dv, ti, tt⟩, q, st, ra, res, reg⟩ := s
  cases ra with
  | none =>
    show finishProbe t ⟨⟨so, dv, ti, tt⟩, q, st, none, res, reg⟩ = _
    unfold finishProbe
    rw [clearProbeTimeouts_spec, closeUdpSocket_spec]
  | some r => cases h

/-- Datagram delivery changes only the device map. -/
theorem deliverDatagram_fields (s : ProbeSim) (p : Option JsonVal) :
    (deliverDatagram s p).probe.discovery_interval_timer =
        s.probe.discovery_interval_timer ∧
      (deliverDatagram s p).probe.discovery_timeout_timer =
        s.probe.discovery_timeout_timer ∧
      (deliverDatagram s p).resolvedAt = s.resolvedAt ∧
      (deliverDatagram s p).queue = s.queue := by
  unfold deliverDatagram
  split <;> simp

/-- With both timers cleared the loop only drains datagrams and the
resolution state never changes. -/
theorem simRun_stable (fuel : Nat) :
    ∀ (s : ProbeSim) (dgs : List (Nat × Option JsonVal)),
      s.probe.discovery_interval_timer = none →
      s.probe.discovery_timeout_timer = none →
      (simRun fuel s dgs).resolvedAt = s.resolvedAt := by
  induction fuel with
  | zero => intro s dgs _ _; rfl
  | succ n ih =>
    intro s dgs h1 h2
    cases dgs with
    | nil => simp [simRun, h1, h2]
    | cons d rest =>
      obtain ⟨td, payload⟩ := d
      have hf := deliverDatagram_fields s payload
      simp [simRun, h1, h2, leOpt]
      rw [ih (deliverDatagram s payload) rest (by rw [hf.1, h1]) (by rw [hf.2.1, h2])]
      exact hf.2.2.1

/-- Core timing lemma: from an unresolved state whose interval timer is
armed at time a and whose timeout timer is armed at the discovery
timeout, the loop resolves the future exactly at the earlier of the
send-queue completion time and the timeout, whatever datagrams arrive. -/
theorem simRun_resolves (fuel : Nat) :
    ∀ (s : ProbeSim) (dgs : List (Nat × Option JsonVal)) (a : Nat),
      s.resolvedAt = none →
      s.probe.discovery_interval_timer = some a →
      s.probe.discovery_timeout_timer = some DISCOVERY_TIMEOUT →
      s.queue + dgs.length + 2 ≤ fuel →
      (simRun fuel s dgs).resolvedAt =
        some (min (a + DISCOVERY_RETRY_INTERVAL * s.queue) DISCOVERY_TIMEOUT) := by
  induction fuel with
  | zero => intro s dgs a _ _ _ h4; omega
  | succ n ih =>
    intro s dgs a h1 h2 h3 h4
    have fire : ∀ (L : List (Nat × Option JsonVal)), s.queue + L.length + 2 ≤ n + 1 →
        (if a ≤ DISCOVERY_TIMEOUT then simRun n (sendSoapRequestStep a s) L
         else simRun n (finishProbe DISCOVERY_TIMEOUT s) L).resolvedAt =
          some (min (a + DISCOVERY_RETRY_INTERVAL * s.queue) DISCOVERY_TIMEOUT) := by
      intro L hL
      by_cases hle : a ≤ DISCOVERY_TIMEOUT
      · rw [if_pos hle]
        cases hq : s.queue with
        | zero =>
          have hsend : sendSoapRequestStep a s = finishProbe a s := by
            simp [sendSoapRequestStep, hq]
          rw [hsend, finishProbe_unresolved a s h1, simRun_stable n _ L rfl rfl]
          simp [hq, min_eq_left hle]
        | succ q =>
          have hra : (sendSoapRequestStep a s).resolvedAt = none := by
            simp [sendSoapRequestStep, hq, h1]
          have hti : (sendSoapRequestStep a s).probe.discovery_interval_timer =
              some (a + DISCOVERY_RETRY_INTERVAL) := by
            simp [sendSoapRequestStep, hq]
          have htt : (sendSoapRequestStep a s).probe.discovery_timeout_timer =
              some DISCOVERY_TIMEOUT := by
            simp [sendSoapRequestStep, hq, h3]
          have hqf : (sendSoapRequestStep a s).queue = q := by
            simp [sendSoapRequestStep, hq]
          have hfu : (sendSoapRequestStep a s).queue + L.length + 2 ≤ n := by
            rw [hqf]; omega
          rw [ih (sendSoapRequestStep a s) L (a + DISCOVERY_RETRY_INTERVAL) hra hti htt hfu,
            hqf]
          have harith : a + DISCOVERY_RETRY_INTERVAL + DISCOVERY_RETRY_INTERVAL * q =
              a + DISCOVERY_RETRY_INTERVAL * (q + 1) := by
            ring
          rw [harith]
      · rw [if_neg hle]
        rw [finishProbe_unresolved DISCOVERY_TIMEOUT s h1, simRun_stable n _ L rfl rfl]
        have hmin : min (a + DISCOVERY_RETRY_INTERVAL * s.queue) DISCOVERY_TIMEOUT =
            DISCOVERY_TIMEOUT := by
          have : DISCOVERY_TIMEOUT ≤ a + DISCOVERY_RETRY_INTERVAL * s.queue := by omega
          exact min_eq_right this
        rw [hmin]
    cases dgs with
    | nil =>
      simp only [simRun, h2, h3]
      exact fire [] (by simpa using h4)
    | cons d rest =>
      obtain ⟨td, payload⟩ := d
      simp only [simRun, h2, h3]
      by_cases hdg : (leOpt td (some a) && leOpt td (some DISCOVERY_TIMEOUT)) = true
      · rw [if_pos hdg]
        obtain ⟨f1, f2, f3, f4⟩ := deliverDatagram_fields s payload
        have hfu : (deliverDatagram s payload).queue + rest.length + 2 ≤ n := by
          rw [f4]
          simp only [List.length_cons] at h4
          omega
        rw [ih (deliverDatagram s payload) rest a (f3.trans h1) (f1.trans h2)
          (f2.trans h3) hfu, f4]
      · rw [if_neg hdg]
        exact fire ((td, payload) :: rest) h4

/-- Resolution time of a freshly started probe with N queued requests. -/
theorem startProbe_queue_resolves (N : Nat) (dgs : List (Nat × Option JsonVal))
    (fuel : Nat) (h : N + dgs.length + 2 ≤ fuel) :
    (simRun fuel (sendSoapRequestStep 0
      { probe := { udpSocketOpen := true, devices := [],
                   discovery_interval_timer := none,
                   discovery_timeout_timer := some DISCOVERY_TIMEOUT }
        queue := N
        sendTimes := []
        resolvedAt := none
        result := none
        registered := true }) dgs).resolvedAt =
      some (min (DISCOVERY_RETRY_INTERVAL * N) DISCOVERY_TIMEOUT) := by
  cases N with
  | zero =>
    have hsend : sendSoapRequestStep 0
        ({ probe := { udpSocketOpen := true, devices := [],
                      discovery_interval_timer := none,
                      discovery_timeout_timer := some DISCOVERY_TIMEOUT }
           queue := 0
           sendTimes := []
           resolvedAt := none
           result := none
           registered := true } : ProbeSim) =
        finishProbe 0
          { probe := { udpSocketOpen := true, devices := [],
                       discovery_interval_timer := none,
                       discovery_timeout_timer := some DISCOVERY_TIMEOUT }
            queue := 0
            sendTimes := []
            resolvedAt := none
            result := none
            registered := true } := by
      simp [sendSoapRequestStep]
    rw [hsend, finishProbe_unresolved _ _ rfl, simRun_stable fuel _ dgs rfl rfl]
    simp
  | succ m =>
    have hra : (sendSoapRequestStep 0
        ({ probe := { udpSocketOpen := true, devices := [],
                      discovery_interval_timer := none,
                      discovery_timeout_timer := some DISCOVERY_TIMEOUT }
           queue := m + 1
           sendTimes := []
           resolvedAt := none
           result := none
           registered := true } : ProbeSim)).resolvedAt = none := by
      simp [sendSoapRequestStep]
    rw [simRun_resolves fuel _ dgs (0 + DISCOVERY_RETRY_INTERVAL) hra
      (by simp [sendSoapRequestStep]) (by simp [sendSoapRequestStep])
      (by simp [sendSoapRequestStep]; omega)]
    have harith : 0 + DISCOVERY_RETRY_INTERVAL + DISCOVERY_RETRY_INTERVAL *
        (sendSoapRequestStep 0
          ({ probe := { udpSocketOpen := true, devices := [],
                        discovery_interval_timer := none,
                        discovery_timeout_timer := some DISCOVERY_TIMEOUT }
             queue := m + 1
             sendTimes := []
             resolvedAt := none
             result := none
             registered := true } : ProbeSim)).queue =
        DISCOVERY_RETRY_INTERVAL * (m + 1) := by
      have hqf : (sendSoapRequestStep 0
          ({ probe := { udpSocketOpen := true, devices := [],
                        discovery_interval_timer := none,
                        discovery_timeout_timer := some DISCOVERY_TIMEOUT }
             queue := m + 1
             sendTimes := []
             resolvedAt := none
             result := none
             registered := true } : ProbeSim)).queue = m := by
        simp [sendSoapRequestStep]
      rw [hqf]; ring
    rw [harith]

/-- C2 (amended): completion of a probe session is driven by the
earlier of send-queue completion and the overall timeout — the future
resolves exactly at min(150 ms times the number of queued requests,
3000 ms), whatever datagrams arrive, and hence always within the
discovery timeout. -/
theorem c2_probe_completion (numTypes : Nat) (dgs : List (Nat × Option JsonVal))
    (fuel : Nat) (hfuel : DISCOVERY_RETRIES_MAX * numTypes + dgs.length + 2 ≤ fuel) :
    (startProbeSim numTypes dgs fuel).resolvedAt =
      some (min (DISCOVERY_RETRY_INTERVAL * (DISCOVERY_RETRIES_MAX * numTypes))
        DISCOVERY_TIMEOUT) ∧
      min (DISCOVERY_RETRY_INTERVAL * (DISCOVERY_RETRIES_MAX * numTypes))
        DISCOVERY_TIMEOUT ≤ DISCOVERY_TIMEOUT := by
  exact ⟨startProbe_queue_resolves (DISCOVERY_RETRIES_MAX * numTypes) dgs fuel hfuel,
    min_le_right _ _⟩

/-- Witness for C2 (amended): the default three device types with no
replies resolve at 1350 ms. -/
theorem c2_probe_completion_witness :
    (startProbeSim 3 [] 20).resolvedAt =
      some (min (DISCOVERY_RETRY_INTERVAL * (DISCOVERY_RETRIES_MAX * 3))
        DISCOVERY_TIMEOUT) ∧
      min (DISCOVERY_RETRY_INTERVAL * (DISCOVERY_RETRIES_MAX * 3))
        DISCOVERY_TIMEOUT ≤ DISCOVERY_TIMEOUT :=
  c2_probe_completion 3 [] 20 (by decide)

/-- C2 counterexample: with the default three device types the send
queue drains at 1350 ms, the session resolves then — strictly before
the 3000 ms timeout — the socket is closed, and a well-formed
ProbeMatch reply arriving at 2000 ms is dropped (empty result list)
even though the same datagram parses to a valid device. -/
theorem c2_counterexample :
    (startProbeSim 3 [(2000, some (sampleProbeMatchXml "urn:uuid:dev1"))] 50).resolvedAt =
        some 1350 ∧
      1350 < DISCOVERY_TIMEOUT ∧
      (startProbeSim 3 [(2000, some (sampleProbeMatchXml "urn:uuid:dev1"))] 50).probe.udpSocketOpen =
        false ∧
      (startProbeSim 3 [(2000, some (sampleProbeMatchXml "urn:uuid:dev1"))] 50).result =
        some [] ∧
      (parseScopedData (parseDataFromXmlResponse (sampleProbeMatchXml "urn:uuid:dev1"))).isSome =
        true := by
  decide

/-- C8: teardown of a probe session is idempotent — a first finish
clears both timers, closes the socket and deregisters the session, and
a second finish invocation on the already-torn-down session leaves the
state unchanged; clearing cleared timers and closing a closed socket
are no-ops. -/
theorem c8_teardown_idempotent (s : ProbeSim) (t u : Nat) :
    ((finishProbe t s).probe.discovery_interval_timer = none ∧
      (finishProbe t s).probe.discovery_timeout_timer = none ∧
      (finishProbe t s).probe.udpSocketOpen = false ∧
      (finishProbe t s).registered = false) ∧
      finishProbe u (finishProbe t s) = finishProbe t s ∧
      clearProbeTimeouts (clearProbeTimeouts s.probe) = clearProbeTimeouts s.probe ∧
      closeUdpSocket (closeUdpSocket s.probe) = closeUdpSocket s.probe := by
  obtain ⟨⟨so, dv, ti, tt⟩, q, st, ra, res, reg⟩ := s
  cases so <;> cases ti <;> cases tt <;> cases ra <;>
    exact ⟨⟨rfl, rfl, rfl, rfl⟩, rfl, rfl, rfl⟩

/-- An entry already stored in the device map survives one further
reply, whatever it is. -/
theorem lookupDevice_setDeviceData_preserved (devices : DeviceMap)
    (r : Option ScopedData) (u : String) (v : ScopedData)
    (h : lookupDevice devices u = some v) :
    lookupDevice (setDeviceData devices r) u = some v := by
  cases r with
  | none => exact h
  | some d =>
    unfold setDeviceData
    by_cases hd : (lookupDevice devices d.urn).isSome
    · simpa [hd] using h
    · simp only [hd, if_false, Bool.false_eq_true]
      unfold lookupDevice at h ⊢
      rw [List.find?_append]
      rcases hfind : devices.find? (fun p => p.1 == u) with _ | e
      · simp [hfind] at h
      · simp [hfind] at h ⊢
        exact h

/-- An entry already stored in the device map survives every later
sequence of replies. -/
theorem lookupDevice_foldl_preserved (replies : List (Option ScopedData)) :
    ∀ (devices : DeviceMap) (u : String) (v : ScopedData),
      lookupDevice devices u = some v →
      lookupDevice (replies.foldl setDeviceData devices) u = some v := by
  induction replies with
  | nil => intro devices u v h; exact h
  | cons r rest ih =>
    intro devices u v h
    exact ih (setDeviceData devices r) u v
      (lookupDevice_setDeviceData_preserved devices r u v h)

/-- C3: deduplication of discovered devices is first-writer-wins — a
null parse result or an already known urn leaves the device map
unchanged and a fresh urn is appended, so two replies with equal urns
produce one entry (the first) and two distinct urns produce two; an
inserted entry is never overwritten by any later reply sequence. -/
theorem c3_dedup_first_wins (devices : DeviceMap) (d d2 : ScopedData)
    (replies : List (Option ScopedData)) :
    setDeviceData devices none = devices ∧
      setDeviceData devices (some d) =
        (if (lookupDevice devices d.urn).isSome then devices
         else devices ++ [(d.urn, d)]) ∧
      createDeviceList (setDeviceData (setDeviceData [] (some d)) (some d2)) =
        (if d2.urn = d.urn then [d] else [d, d2]) ∧
      (∀ (u : String) (v : ScopedData), lookupDevice devices u = some v →
        lookupDevice (replies.foldl setDeviceData devices) u = some v) := by
  refine ⟨rfl, rfl, ?_, fun u v h => lookupDevice_foldl_preserved replies devices u v h⟩
  have h1 : setDeviceData [] (some d) = [(d.urn, d)] := rfl
  rw [h1]
  by_cases he : d2.urn = d.urn
  · simp [setDeviceData, lookupDevice, he, createDeviceList]
  · rw [if_neg he]
    simp [setDeviceData, lookupDevice, createDeviceList, if_neg (Ne.symm he)]

/-- Witness for C3: a duplicate reply for a stored urn leaves the
first entry in place and the resolved list holds only the first. -/
theorem c3_dedup_first_wins_witness :
    lookupDevice (List.foldl setDeviceData [("urn:uuid:a", c3DevA)] [some c3DevB])
        "urn:uuid:a" = some c3DevA ∧
      createDeviceList (setDeviceData (setDeviceData [] (some c3DevA)) (some c3DevB)) =
        [c3DevA] :=
  ⟨(c3_dedup_first_wins [("urn:uuid:a", c3DevA)] c3DevA c3DevB [some c3DevB]).2.2.2
      "urn:uuid:a" c3DevA rfl,
   ((c3_dedup_first_wins [("urn:uuid:a", c3DevA)] c3DevA c3DevB [some c3DevB]).2.2.1).trans
      (by decide)⟩

/-- C9: the fixed scope list derives name Foo Bar (underscores
replaced by spaces in the last path segment), hardware X1 and an empty
location, for any truthy urn and nonempty xaddrs. -/
theorem c9_scope_parsing (urn : String) (xaddrs : List String) (types : List String)
    (hurn : urn ≠ "") (hx : xaddrs ≠ []) :
    parseScopedData
      { urn := urn, xaddrs := xaddrs,
        scopes := ["onvif://www.onvif.org/name/Foo_Bar",
                   "onvif://www.onvif.org/hardware/X1"],
        types := types } =
      some { urn := urn, xaddrs := xaddrs,
             scopes := ["onvif://www.onvif.org/name/Foo_Bar",
                        "onvif://www.onvif.org/hardware/X1"],
             types := types, name := "Foo Bar", hardware := "X1", location := "" } := by
  unfold parseScopedData
  rw [if_pos ⟨hurn, by simpa using List.length_pos.mpr hx, by simp⟩]
  rfl

/-- Witness for C9 at a concrete device. -/
theorem c9_scope_parsing_witness :
    parseScopedData
      { urn := "urn:uuid:1", xaddrs := ["http://x"],
        scopes := ["onvif://www.onvif.org/name/Foo_Bar",
                   "onvif://www.onvif.org/hardware/X1"],
        types := [] } =
      some { urn := "urn:uuid:1", xaddrs := ["http://x"],
             scopes := ["onvif://www.onvif.org/name/Foo_Bar",
                        "onvif://www.onvif.org/hardware/X1"],
             types := [], name := "Foo Bar", hardware := "X1", location := "" } :=
  c9_scope_parsing "urn:uuid:1" ["http://x"] [] (by decide) (by decide)

/-- C10: a string containing an angle bracket or a character outside
printable ASCII never passes string validation, and a string that does
pass contains no XML markup delimiters. -/
theorem c10_string_validation (s : String) (ae : Bool) :
    (s.data.any (fun c => c == '<' || c == '>' || isNonPrintable c) = true →
      isInvalidValue (.jsStrV s) "string" ae ≠ "") ∧
    (isInvalidValue (.jsStrV s) "string" ae = "" →
      ∀ c ∈ s.data, c ≠ '<' ∧ c ≠ '>') := by
  have hbase : isInvalidValue (.jsStrV s) "string" ae =
      isInvalidValueRest (.jsStrV s) "string" ae := by
    simp [isInvalidValue, getTypeOfValue]
  have hrest : isInvalidValueRest (.jsStrV s) "string" ae =
      (if !ae && (s == "") then "The value must not be an empty string."
       else if s.data.any isNonPrintable then
         "The value must consist of ascii characters."
       else if s.data.any (fun c => c == '<' || c == '>') then
         "Invalid characters were found in the value (\"<\", \">\")"
       else "") := by
    simp [isInvalidValueRest, jsValueIsEmptyString, getTypeOfValue]
  have part1 : s.data.any (fun c => c == '<' || c == '>' || isNonPrintable c) = true →
      isInvalidValue (.jsStrV s) "string" ae ≠ "" := by
    intro h
    rw [hbase, hrest]
    by_cases he : (!ae && (s == "")) = true
    · rw [if_pos he]
      decide
    · rw [if_neg he]
      by_cases hnp : s.data.any isNonPrintable = true
      · rw [if_pos hnp]
        decide
      · rw [if_neg hnp]
        have hlt : s.data.any (fun c => c == '<' || c == '>') = true := by
          rcases List.any_eq_true.mp h with ⟨c, hc, hcb⟩
          rcases Bool.or_eq_true_iff.mp hcb with hor | hnpc
          · exact List.any_eq_true.mpr ⟨c, hc, hor⟩
          · exact absurd (List.any_eq_true.mpr ⟨c, hc, hnpc⟩) (by simpa using hnp)
        rw [if_pos hlt]
        decide
  refine ⟨part1, ?_⟩
  intro h c hc
  constructor <;> intro hEq
  · exact part1 (List.any_eq_true.mpr ⟨c, hc, by simp [hEq]⟩) h
  · exact part1 (List.any_eq_true.mpr ⟨c, hc, by simp [hEq]⟩) h

/-- Witness for C10 at a concrete markup-bearing string. -/
theorem c10_string_validation_witness :
    isInvalidValue (.jsStrV "<Body>") "string" false ≠ "" :=
  (c10_string_validation "<Body>" false).1 (by decide)

/-- C4 counterexample: the response computed by the Digest
authenticator for the fixed vector equals the single MD5 of the
colon-joined fields including nc, and differs from the formula of the
claim both under its literal double-MD5 reading and under the
single-MD5 reading, which both omit the nc field. -/
theorem c4_counterexample :
    (digestAuthArgs [("realm", "R"), ("nonce", "N"), ("qop", "auth")] "/x" "GET"
        "admin" "p" "C").map (fun args => lookupParam args "response") =
      .ok (some (md5Hash (md5Hash "admin:R:p" ++ ":N:00000001:C:auth:" ++
        md5Hash "GET:/x"))) ∧
    md5Hash (md5Hash "admin:R:p" ++ ":N:00000001:C:auth:" ++ md5Hash "GET:/x") ≠
      md5Hash (md5Hash (md5Hash "admin:R:p" ++ ":N:C:auth:" ++ md5Hash "GET:/x")) ∧
    md5Hash (md5Hash "admin:R:p" ++ ":N:00000001:C:auth:" ++ md5Hash "GET:/x") ≠
      md5Hash (md5Hash "admin:R:p" ++ ":N:C:auth:" ++ md5Hash "GET:/x") := by
  refine ⟨rfl, by decide, by decide⟩

/-- C4 (amended): for the fixed vector the computed response equals
MD5(MD5(admin:R:p):N:00000001:C:auth:MD5(GET:/x)), byte for byte. -/
theorem c4_digest_response :
    (digestAuthArgs [("realm", "R"), ("nonce", "N"), ("qop", "auth")] "/x" "GET"
        "admin" "p" "C").map (fun args => lookupParam args "response") =
      .ok (some (md5Hash (md5Hash "admin:R:p" ++ ":" ++ "N" ++ ":" ++ "00000001" ++
        ":" ++ "C" ++ ":" ++ "auth" ++ ":" ++ md5Hash "GET:/x"))) ∧
    md5Hash (md5Hash "admin:R:p" ++ ":" ++ "N" ++ ":" ++ "00000001" ++ ":" ++ "C" ++
        ":" ++ "auth" ++ ":" ++ md5Hash "GET:/x") =
      "47db6cf7bbda7ae1e5fb2731a906b0d6" := by
  refine ⟨rfl, by decide⟩

/-- C7: an HTTP 400 whose fault reason contains Sender not authorized
is reported as 401 Unauthorized without the fault text; every other
fault report carries the HTTP status together with the fault reason
and detail; and the response handler produces exactly that message for
a parsed fault body. -/
theorem c7_fault_classification (methodName : String) (he : HttpErrorInfo)
    (oe : OnvifErrorInfo) (xml : String) (parsed : JsonVal) :
    (he.code = 400 → containsSubstring oe.message "Sender not authorized" = true →
      formatError methodName (some he) none (some oe) =
        methodName ++ "():" ++ " [HTTP status: 401 Unauthorized]") ∧
    (¬(he.code = 400 ∧ containsSubstring oe.message "Sender not authorized" = true) →
      formatError methodName (some he) none (some oe) =
        methodName ++ "():" ++ httpStatusTag he ++ onvifErrorTag oe) ∧
    (he.code = 400 → containsSubstring oe.message "Sender not authorized" = true →
      xml ≠ "" → parseOnvifError parsed = some oe →
      soapResponseHandler methodName 400 he.message xml (.ok parsed) =
        .error (.http (methodName ++ "():" ++ " [HTTP status: 401 Unauthorized]"))) := by
  refine ⟨?_, ?_, ?_⟩
  · intro h400 hinc
    simp [formatError, h400, hinc]
  · intro hnot
    have hb : (he.code == 400 && containsSubstring oe.message "Sender not authorized") =
        false := by
      by_cases h1 : he.code = 400
      · by_cases h2 : containsSubstring oe.message "Sender not authorized" = true
        · exact absurd ⟨h1, h2⟩ hnot
        · simp [h2]
      · simp [h1]
    simp [formatError, hb]
  · intro h400 hinc hxml hfault
    simp [soapResponseHandler, hxml, hfault, formatError, h400, hinc]

/-- Witness for C7: a concrete 400 fault with the magic reason text is
normalized to a 401 report. -/
theorem c7_fault_classification_witness :
    formatError "SetScopes" (some { code := 400, message := "Bad Request" }) none
        (some { message := "Sender not authorized to call this operation",
                detail := "AccessDenied" }) =
      "SetScopes" ++ "():" ++ " [HTTP status: 401 Unauthorized]" :=
  (c7_fault_classification "SetScopes" { code := 400, message := "Bad Request" }
    { message := "Sender not authorized to call this operation",
      detail := "AccessDenied" } "" (.str "")).1 rfl (by decide)

/-- C6: a 200 response whose parsed body lacks Body or the operation
response key fails with the distinct does-not-support error (not a
parse or transport error), and the sub-tree is returned when present. -/
theorem c6_unsupported_operation (methodName : String) (r : SoapWireResponse)
    (pb : String → Except String JsonVal) (tree : JsonVal)
    (h200 : r.statusCode = 200) (hparse : pb r.body = .ok tree) :
    (jsonLookup tree "Body" = none →
      requestCommand methodName [r] pb =
        (1, .error (.unsupportedOperation
          ("The device does not seem to support the " ++ methodName ++ "() method.")))) ∧
    (∀ body, jsonLookup tree "Body" = some body →
      jsonLookup body (methodName ++ "Response") = none →
      requestCommand methodName [r] pb =
        (1, .error (.unsupportedOperation
          ("The device does not seem to support the " ++ methodName ++ "() method.")))) ∧
    (∀ body sub, jsonLookup tree "Body" = some body →
      jsonLookup body (methodName ++ "Response") = some sub →
      requestCommand methodName [r] pb = (1, .ok sub)) := by
  have hcore : requestCommand methodName [r] pb = (1, parseValidResponse tree methodName) := by
    simp [requestCommand, soapHttpRequest, soapResponseHandler, h200, hparse]
  refine ⟨?_, ?_, ?_⟩
  · intro hmiss
    rw [hcore]
    simp [parseValidResponse, hmiss]
  · intro body hbody hmiss
    rw [hcore]
    simp [parseValidResponse, hbody, hmiss]
  · intro body sub hbody hsub
    rw [hcore]
    simp [parseValidResponse, hbody, hsub]

/-- Witness for C6: a concrete missing response key yields the
does-not-support error and a present key returns its sub-tree. -/
theorem c6_unsupported_operation_witness :
    requestCommand "GetFoo" [c6Response] (fun _ => .ok c6TreeMissing) =
      (1, .error (.unsupportedOperation
        ("The device does not seem to support the " ++ "GetFoo" ++ "() method."))) ∧
    requestCommand "GetFoo" [c6Response] (fun _ => .ok c6TreePresent) =
      (1, .ok (.str "payload")) :=
  ⟨(c6_unsupported_operation "GetFoo" c6Response (fun _ => .ok c6TreeMissing)
      c6TreeMissing rfl rfl).2.1 (.obj [("SomethingElseResponse", .str "x")]) rfl rfl,
   (c6_unsupported_operation "GetFoo" c6Response (fun _ => .ok c6TreePresent)
      c6TreePresent rfl rfl).2.2 (.obj [("GetFooResponse", .str "payload")])
      (.str "payload") rfl rfl⟩

/-- C5: the UsernameToken inserted for a nonempty user renders the
created time as the ISO-8601 of now plus the clock offset, the nonce
as the base64 of the 16 drawn bytes, and the password digest as
base64(SHA1(nonce bytes, created string, password)); the token is
embedded in the envelope header. -/
theorem c5_username_token (now diff : Int) (rng : Nat → Nat) (user pass : String)
    (body : String) (xmlns : List String) (huser : user ≠ "") :
    createSoapUserToken now diff rng user pass =
      "<Security s:mustUnderstand=\"1\" xmlns=\"http://docs.oasis-open.org/wss/2004/01/oasis-200401-wss-wssecurity-secext-1.0.xsd\">" ++
      "  <UsernameToken>" ++
      "    <Username>" ++ user ++ "</Username>" ++
      "    <Password Type=\"http://docs.oasis-open.org/wss/2004/01/oasis-200401-wss-username-token-profile-1.0#PasswordDigest\">" ++
        base64 (sha1Bytes (createNonce rng 16 ++ strBytes (toISOString (now + diff)) ++
          strBytes pass)) ++ "</Password>" ++
      "    <Nonce EncodingType=\"http://docs.oasis-open.org/wss/2004/01/oasis-200401-wss-soap-message-security-1.0#Base64Binary\">" ++
        base64 (createNonce rng 16) ++ "</Nonce>" ++
      "    <Created xmlns=\"http://docs.oasis-open.org/wss/2004/01/oasis-200401-wss-wssecurity-utility-1.0.xsd\">" ++
        toISOString (now + diff) ++ "</Created>" ++
      "  </UsernameToken>" ++
      "</Security>" ∧
    (createNonce rng 16).length = 16 ∧
    createRequestSoap body xmlns now diff rng user pass =
      collapseAngleWs ("<?xml version=\"1.0\" encoding=\"UTF-8\"?>" ++
        "<s:Envelope" ++
        "  xmlns:s=\"http://www.w3.org/2003/05/soap-envelope\"" ++
        String.join (xmlns.map (fun ns => " " ++ ns)) ++
        ">" ++
        "<s:Header>" ++
        createSoapUserToken now diff rng user pass ++
        "</s:Header>" ++
        "<s:Body>" ++ body ++ "</s:Body>" ++
        "</s:Envelope>") := by
  refine ⟨rfl, by simp [createNonce], ?_⟩
  simp only [createRequestSoap, if_pos huser]

/-- Witness for C5: the full token at a fixed clock and entropy, byte
for byte. -/
theorem c5_username_token_witness :
    createSoapUserToken 1506774896789 0 (fun i => i) "admin" "p" =
      "<Security s:mustUnderstand=\"1\" xmlns=\"http://docs.oasis-open.org/wss/2004/01/oasis-200401-wss-wssecurity-secext-1.0.xsd\">  <UsernameToken>    <Username>admin</Username>    <Password Type=\"http://docs.oasis-open.org/wss/2004/01/oasis-200401-wss-username-token-profile-1.0#PasswordDigest\">UNNMKgvSq6jNTUmKADilEuAEUWI=</Password>    <Nonce EncodingType=\"http://docs.oasis-open.org/wss/2004/01/oasis-200401-wss-soap-message-security-1.0#Base64Binary\">AAECAwQFBgcICQoLDA0ODw==</Nonce>    <Created xmlns=\"http://docs.oasis-open.org/wss/2004/01/oasis-200401-wss-wssecurity-utility-1.0.xsd\">2017-09-30T12:34:56.789Z</Created>  </UsernameToken></Security>" ∧
    (createNonce (fun i => i) 16).length = 16 :=
  ⟨((c5_username_token 1506774896789 0 (fun i => i) "admin" "p" "" []
      (by decide)).1).trans (by decide),
   (c5_username_token 1506774896789 0 (fun i => i) "admin" "p" "" []
      (by decide)).2.1⟩

/-- C1 (amended): the challenge-response HTTP client (used for
snapshot fetches) performs exactly one authenticated retry on a 401
bearing a WWW-Authenticate header — the trace has exactly two round
trips, the retry carries the Authorization header built from the
parsed challenge, and the second response is surfaced as is (a second
401 is final, a 200 means success after exactly two round trips). -/
theorem c1_http_auth_single_retry (server : Option String → AuthHttpResponse)
    (options : AuthReqOptions) (rng : Nat → Nat) (challenge auth : String)
    (h1 : server none = { statusCode := 401, wwwAuthenticate := some challenge })
    (hbuild : buildAuthHeaderString (parseAuthString challenge) options.path
        (options.method.getD "GET") options.user options.pass
        (createClientNonce rng 32) = .ok auth) :
    httpAuthRequest server options rng = .ok ([none, some auth], server (some auth)) := by
  unfold httpAuthRequest
  rw [h1]
  simp [hbuild]

/-- Witness for C1 (amended): a concrete 401-then-200 Digest exchange
succeeds with exactly two round trips. -/
theorem c1_http_auth_single_retry_witness :
    httpAuthRequest c1Server c1Options (fun _ => 0) =
      .ok ([none, some "Digest username=\"admin\",realm=\"R\",nonce=\"N\",uri=\"/x\",response=\"c67f10b796950515c1acf8bdc64e6146\""],
        { statusCode := 200, wwwAuthenticate := none }) ∧
    (c1Server (some "Digest username=\"admin\",realm=\"R\",nonce=\"N\",uri=\"/x\",response=\"c67f10b796950515c1acf8bdc64e6146\"")).statusCode =
      200 :=
  ⟨c1_http_auth_single_retry c1Server c1Options (fun _ => 0)
      "Digest realm=\"R\", nonce=\"N\""
      "Digest username=\"admin\",realm=\"R\",nonce=\"N\",uri=\"/x\",response=\"c67f10b796950515c1acf8bdc64e6146\""
      rfl rfl,
   rfl⟩

/-- C1 counterexample: a SOAP command request whose first response is
a 401 bearing a Digest challenge is not retried by the SOAP transport
— exactly one round trip happens and the call fails, even though the
server would have answered 200 to an authenticated retry. -/
theorem c1_counterexample :
    (requestCommand "GetSystemDateAndTime" c1SoapResponses
        (fun _ => .error "no body")).1 = 1 ∧
    (requestCommand "GetSystemDateAndTime" c1SoapResponses
        (fun _ => .error "no body")).2 =
      .error (.http "GetSystemDateAndTime(): [HTTP status: 401 Unauthorized]") ∧
    (c1SoapResponses.get? 0).map (fun r => (r.statusCode, r.wwwAuthenticate)) =
      some (401, some "Digest realm=\"R\", nonce=\"N\"") ∧
    (c1SoapResponses.get? 1).map (fun r => r.statusCode) = some 200 := by
  refine ⟨rfl, rfl, rfl, rfl⟩

end NodeOnvif
